import Mathlib

/-!
Verification of the synthacc Syngine boundary (`synthacc/io/syngine.py`) and
the Seismogram/Recording data model it feeds, against the repository spec.

Python numbers are embedded as rationals (`ℚ`), Python strings as `String`,
fallible code as `Option`.  The rational arithmetic primitives are made
semireducible so that concrete runs of the embedded functions can be
checked by kernel evaluation.  The string-formatting helpers below model the
CPython formatting operations used by the source: `fmtF` models the
percent-formatting of a float with spec f (fixed point, six decimals),
`fmtE` models format spec e (scientific form, six decimals, signed
two-digit exponent), `pyStr` models str of a float with a terminating
decimal expansion, and `intStr` models str of an int.
-/

set_option allowUnsafeReducibility true

set_option maxRecDepth 40000

attribute [semireducible] Rat.mul Rat.add Rat.sub Rat.inv Rat.ofScientific

/-- One decimal digit character; callers always pass a value below ten, the
modulus only keeps the digit range unconditional. -/
def digitChar (n : ℕ) : Char := Char.ofNat (48 + n % 10)

/-- Decimal digits of a natural number, most significant first
(fuel-bounded so that the kernel can evaluate it). -/
def natStrCore : ℕ → ℕ → List Char
  | _, 0 => []
  | n, fuel + 1 =>
    if n < 10 then [digitChar n]
    else natStrCore (n / 10) fuel ++ [digitChar (n % 10)]

/-- Decimal digits of a natural number, most significant first. -/
def natStrAux (n : ℕ) : List Char := natStrCore n (n + 1)

/-- Decimal rendering of a natural number. -/
def natStr (n : ℕ) : String := ⟨natStrAux n⟩

/-- Decimal rendering of an integer, models Python `str` on an int. -/
def intStr (i : ℤ) : String :=
  (if i < 0 then "-" else "") ++ natStr i.natAbs

/-- Left-pad a digit list with zeros to the given width. -/
def padZeros (k : ℕ) (l : List Char) : List Char :=
  List.replicate (k - l.length) '0' ++ l

/-- Decimal expansion of the fraction `num / den` (with `num < den`),
fuel-bounded, stopping at the last nonzero digit. -/
def fracDigits : ℕ → ℕ → ℕ → List Char
  | _, _, 0 => []
  | num, den, fuel + 1 =>
    if num = 0 then []
    else digitChar (num * 10 / den) :: fracDigits (num * 10 % den) den fuel

/-- Models Python `str` on a float whose exact value is the given rational:
integer part, a dot, and the fractional digits (at least one). -/
def pyStr (q : ℚ) : String :=
  let sgn : String := if q < 0 then "-" else ""
  let n := q.num.natAbs
  let d := q.den
  let ds := fracDigits (n % d) d 64
  sgn ++ natStr (n / d) ++ "." ++ (if ds.isEmpty then "0" else ⟨ds⟩)

/-- Floor of a nonnegative rational, as a natural number. -/
def ratFloorNat (q : ℚ) : ℕ := q.num.toNat / q.den

/-- Models the Python percent-formatting of a float with spec f: fixed
point with six decimals. -/
def fmtF (q : ℚ) : String :=
  let sgn : String := if q < 0 then "-" else ""
  let r := ratFloorNat (|q| * 1000000 + 1 / 2)
  sgn ++ natStr (r / 1000000) ++ "." ++ ⟨padZeros 6 (natStrAux (r % 1000000))⟩

/-- Scale a rational in `[1, ∞)` down into `[1, 10)` by powers of ten,
returning the mantissa and the exponent (fuel-bounded). -/
def normHi : ℚ → ℕ → ℚ × ℕ
  | q, 0 => (q, 0)
  | q, fuel + 1 =>
    if q < 10 then (q, 0)
    else
      let p := normHi (q / 10) fuel
      (p.1, p.2 + 1)

/-- Scale a rational in `(0, 1)` up into `[1, 10)` by powers of ten,
returning the mantissa and the (negated) exponent (fuel-bounded). -/
def normLo : ℚ → ℕ → ℚ × ℕ
  | q, 0 => (q, 0)
  | q, fuel + 1 =>
    if 1 ≤ q then (q, 0)
    else
      let p := normLo (q * 10) fuel
      (p.1, p.2 + 1)

/-- Models the Python formatting operation of a float with format spec `e`:
scientific form with a six-decimal mantissa and a signed two-digit
exponent. -/
def fmtE (q : ℚ) : String :=
  if q = 0 then "0.000000e+00"
  else
    let sgn : String := if q < 0 then "-" else ""
    let a := |q|
    let me : ℚ × ℤ :=
      if 1 ≤ a then
        let p := normHi a 700
        (p.1, (p.2 : ℤ))
      else
        let p := normLo a 700
        (p.1, -(p.2 : ℤ))
    let r0 := ratFloorNat (me.1 * 1000000 + 1 / 2)
    let re : ℕ × ℤ := if r0 = 10000000 then (1000000, me.2 + 1) else (r0, me.2)
    sgn ++ natStr (re.1 / 1000000) ++ "." ++ ⟨padZeros 6 (natStrAux (re.1 % 1000000))⟩
      ++ "e" ++ (if re.2 < 0 then "-" else "+") ++ ⟨padZeros 2 (natStrAux re.2.natAbs)⟩

/-- Models the Python string operation `.replace` with a one-character
pattern and an empty replacement: every occurrence of the character is
removed. -/
def removePlus (s : String) : String := ⟨s.data.filter (fun c => c ≠ '+')⟩

example : fmtE 1 = "1.000000e+00" := by decide
example : fmtE (-38996 / 10000 : ℚ) = "-3.899600e+00" := by decide
example : fmtE (1 / 200 : ℚ) = "5.000000e-03" := by decide
example : fmtF (91 / 2 : ℚ) = "45.500000" := by decide
example : fmtF (-1 : ℚ) = "-1.000000" := by decide
example : pyStr (1000 : ℚ) = "1000.0" := by decide
example : pyStr (-5 / 2 : ℚ) = "-2.5" := by decide
example : intStr 5 = "5" := by decide
example : removePlus "1.000000e+00" = "1.000000e00" := by decide

/-!
## The data model of the Syngine boundary

`MomentTensor`, the unit tables and the geographic range predicates live in
repository modules that are not part of the visible source
(`synthacc.source.moment`, `synthacc.units`, `synthacc.earth.geo`,
`synthacc.apy`); they are modelled from the spec.  `get_recording_url` and
`get_recording` are translated from `synthacc/io/syngine.py`.
-/

/-- Modelled from the spec: the moment-tensor object is consumed only as a
provider of its six independent components in a fixed convention
(radial-radial, theta-theta, phi-phi, radial-theta, theta-phi,
phi-radial); the class itself lives in `synthacc.source.moment`, which is
not part of the visible source. -/
structure MomentTensor where
  rr : ℚ
  tt : ℚ
  pp : ℚ
  rt : ℚ
  tp : ℚ
  pr : ℚ
deriving DecidableEq

/-- Modelled from the spec: `get_six` returns the six independent
components in the fixed convention order radial-radial, theta-theta,
phi-phi, radial-theta, theta-phi, phi-radial. -/
def MomentTensor.get_six (mt : MomentTensor) (_convention : String) :
    ℚ × ℚ × ℚ × ℚ × ℚ × ℚ :=
  (mt.rr, mt.tt, mt.pp, mt.rt, mt.tp, mt.pr)

/-- Modelled from the spec: a longitude is a valid degree value, the range
being the full circle `[-180, 180]` (`synthacc.earth.geo.is_lon`, not part
of the visible source). -/
def is_lon (q : ℚ) : Bool := decide (-180 ≤ q) && decide (q ≤ 180)

/-- Modelled from the spec: a latitude lies in `[-90, 90]`
(`synthacc.earth.geo.is_lat`, not part of the visible source). -/
def is_lat (q : ℚ) : Bool := decide (-90 ≤ q) && decide (q ≤ 90)

/-- Modelled from the spec: a positive number
(`synthacc.apy.is_pos_number`, not part of the visible source). -/
def is_pos_number (q : ℚ) : Bool := decide (0 < q)

/-- Modelled from the spec: a positive integer
(`synthacc.apy.is_pos_integer`, not part of the visible source). -/
def is_pos_integer (i : ℤ) : Bool := decide (0 < i)

/-- Modelled from the spec: `MOTION_SI` maps each ground-motion-type
selector to the canonical SI unit of its kind (meters, meters/second,
meters/second squared); it lives in `synthacc.units`, which is not part of
the visible source.  Imported by the source as `SI_UNITS`. -/
def MOTION_SI (gmt : String) : Option String :=
  if gmt = "dis" then some "m"
  else if gmt = "vel" then some "m/s"
  else if gmt = "acc" then some "m/s2"
  else none

/-- The module-level default model identifier of `synthacc/io/syngine.py`. -/
def DEFAULT_MODEL : String := "ak135f_2s"

/-- The fixed service endpoint prefix of the request URL, up to and
including the question mark. -/
def BASE_URL : String := "http://service.iris.edu/irisws/syngine/1/query?"

/-- The inline selector table of `get_recording_url` mapping the
ground-motion-type selector to the unit word of the request; a missing key
aborts the call (Python `KeyError`). -/
def unitsWord (gmt : String) : Option String :=
  if gmt = "dis" then some "displacement"
  else if gmt = "vel" then some "velocity"
  else if gmt = "acc" then some "acceleration"
  else none

/-- The `sourcemomenttensor` fragment of the request URL: the six
components are unpacked from `get_six`, the fifth slot of the template
receives `rp` (bound to `pr`), the sixth receives `tp`, each slot is
formatted with `fmtE`, and every plus sign is removed from the whole
fragment. -/
def sourcemomenttensorFragment (mt : MomentTensor) : String :=
  match mt.get_six "USE" with
  | (rr, tt, pp, rt, tp, pr) =>
    let rp := pr
    removePlus ("&sourcemomenttensor=" ++ fmtE rr ++ "," ++ fmtE tt ++ ","
      ++ fmtE pp ++ "," ++ fmtE rt ++ "," ++ fmtE rp ++ "," ++ fmtE tp)

/-- The assertion block of `get_recording_url`, run when `validate` is
true.  Both latitudes are checked with `is_lon`, exactly as in the source
(which imports `is_lat` but never applies it). -/
def syngineValid (src_lon src_lat src_depth : ℚ) (rcv_lon rcv_lat : ℚ)
    (stf : Option ℤ) (duration : Option ℚ) (gmt : String)
    (components : String) : Bool :=
  is_lon src_lon && is_lon src_lat
    && is_pos_number src_depth
    && is_lon rcv_lon && is_lon rcv_lat
    && (match stf with
        | none => true
        | some s => is_pos_integer s)
    && (match duration with
        | none => true
        | some d => is_pos_number d)
    && (MOTION_SI gmt).isSome
    && (components = "ZRT" || components = "ZNE")

/-- The model identifier placed in the URL: Python `model or
DEFAULT_MODEL`, so an absent or empty model string falls back to the
module default. -/
def modelWord : Option String → String
  | none => DEFAULT_MODEL
  | some m => if m = "" then DEFAULT_MODEL else m

/-- The optional `sourcewidth` fragment, appended only when `stf` is
given. -/
def stfFragment : Option ℤ → String
  | none => ""
  | some s => "&sourcewidth=" ++ intStr s

/-- The optional `endtime` fragment, appended only when `duration` is
given. -/
def durationFragment : Option ℚ → String
  | none => ""
  | some d => "&endtime=" ++ pyStr d

/-- Translation of `get_recording_url` from `synthacc/io/syngine.py`: a
failing assertion or a failing selector lookup yields `none`, otherwise
the request URL is returned.  An absent or empty model string falls back
to `DEFAULT_MODEL` (Python `model or DEFAULT_MODEL`). -/
def get_recording_url (src_lon src_lat src_depth : ℚ) (mt : MomentTensor)
    (rcv_lon rcv_lat : ℚ) (model : Option String) (stf : Option ℤ)
    (duration : Option ℚ) (gmt : String) (components : String)
    (validate : Bool) : Option String :=
  if validate
      && !(syngineValid src_lon src_lat src_depth rcv_lon rcv_lat stf
            duration gmt components) then
    none
  else
    match unitsWord gmt with
    | none => none
    | some uw =>
      some (BASE_URL
        ++ "model=" ++ modelWord model
        ++ "&sourcelongitude=" ++ fmtF src_lon
        ++ "&sourcelatitude=" ++ fmtF src_lat
        ++ "&sourcedepthinmeters=" ++ pyStr src_depth
        ++ sourcemomenttensorFragment mt
        ++ stfFragment stf
        ++ "&receiverlongitude=" ++ pyStr rcv_lon
        ++ "&receiverlatitude=" ++ pyStr rcv_lat
        ++ durationFragment duration
        ++ "&units=" ++ uw
        ++ "&components=" ++ components
        ++ "&format=miniseed")

/-!
## The recordings data model

`Seismogram` and `Recording` live in `synthacc.ground.recordings`, which is
not part of the visible source (only its tests are); they are modelled
from the spec (sections 3, 4.1, 4.2, 4.4), with the concrete behaviour
pinned down by `src/tests/test_ground/test_recordings.py`.
-/

/-- Modelled from the spec: each recognized unit string maps to exactly one
ground-motion kind (section 3, UnitSystem); the canonical SI units are
those of `MOTION_SI`. -/
def kind_of (unit : String) : Option String :=
  if unit = "m" then some "displacement"
  else if unit = "m/s" then some "velocity"
  else if unit = "m/s2" then some "acceleration"
  else none

/-- Modelled from the spec: each recognized unit carries a fixed scale
factor relative to the canonical SI unit of its kind; the canonical units
themselves have scale one. -/
def unitScale (unit : String) : Option ℚ :=
  if unit = "m" then some 1
  else if unit = "m/s" then some 1
  else if unit = "m/s2" then some 1
  else none

/-- Modelled from the spec (section 4.1): conversion is defined only
between units of the same kind and is the linear rescaling
`value * scale(unit) / scale(target)`. -/
def convert (value : ℚ) (unit target : String) : Option ℚ :=
  match kind_of unit, kind_of target, unitScale unit, unitScale target with
  | some k1, some k2, some s1, some s2 =>
    if k1 = k2 then some (value * s1 / s2) else none
  | _, _, _, _ => none

/-- Modelled from the spec (section 3): a Seismogram is a waveform with a
fixed sample interval, an ordered amplitude sequence and a unit string. -/
structure Seismogram where
  time_delta : ℚ
  amplitudes : List ℚ
  unit : String
deriving DecidableEq

/-- Modelled from the spec: peak ground motion is the maximum absolute
amplitude of the sequence. -/
def Seismogram.pgm (s : Seismogram) : ℚ :=
  s.amplitudes.foldl (fun a x => max a |x|) 0

/-- Modelled from the spec: the ground-motion-type of a Seismogram is
recomputed from its unit, never stored. -/
def Seismogram.gmt (s : Seismogram) : Option String := kind_of s.unit

/-- Modelled from the spec (section 4.2): `get_pgm` returns the peak
ground motion in the current unit when no target unit is given, otherwise
converted to the target unit under the same-kind rule. -/
def Seismogram.get_pgm (s : Seismogram) (target : Option String) : Option ℚ :=
  match target with
  | none => some s.pgm
  | some u => convert s.pgm s.unit u

/-- One trace of the parsed response stream: the sample interval encoded
in the stream and the amplitude samples.  The network retrieval and the
MiniSEED parsing are external collaborators (spec section 6); only their
parsed output is modelled. -/
structure Trace where
  time_delta : ℚ
  amplitudes : List ℚ
deriving DecidableEq

/-- Modelled from the spec (section 6): a component Seismogram built from
a response trace carries the trace's amplitudes, the trace's sample
interval, and the requested unit. -/
def Seismogram.from_trace (t : Trace) (unit : String) : Seismogram :=
  ⟨t.time_delta, t.amplitudes, unit⟩

/-- Modelled from the spec (section 3): a Recording is a mapping from
component codes to Seismograms. -/
structure Recording where
  components : List (Char × Seismogram)
deriving DecidableEq

/-- The two recognized component triads, compared as sets
(spec section 4.4, step 2). -/
def sameKeySet (ks target : List Char) : Bool :=
  decide (ks.length = target.length)
    && target.all (fun c => ks.contains c)
    && ks.all (fun c => target.contains c)

/-- All component Seismograms share one sample interval and one sample
count (spec section 4.4, step 3). -/
def allConsistent : List (Char × Seismogram) → Bool
  | [] => true
  | (_, s0) :: rest =>
    rest.all (fun p =>
      decide (p.2.time_delta = s0.time_delta)
        && decide (p.2.amplitudes.length = s0.amplitudes.length))

/-- Modelled from the spec (section 4.4): the Recording constructor
validates, in order, that the mapping is non-empty, that the key set is
exactly one of the two recognized triads, and that the components are
mutually consistent. -/
def Recording.make (comps : List (Char × Seismogram)) : Option Recording :=
  if comps.isEmpty then none
  else if !(sameKeySet (comps.map Prod.fst) ['Z', 'R', 'T']
            || sameKeySet (comps.map Prod.fst) ['Z', 'N', 'E']) then none
  else if !(allConsistent comps) then none
  else some ⟨comps⟩

/-- Translation of `get_recording` from `synthacc/io/syngine.py`,
parameterized by the parsed response stream (the call of `requests.get`
followed by `obspy.read` is the external collaborator): it builds the
request URL with the same arguments, looks up the SI unit of the
requested ground-motion type, pairs the characters of the components
selector with the stream traces in order, and constructs a Recording. -/
def get_recording (stream : List Trace) (src_lon src_lat src_depth : ℚ)
    (mt : MomentTensor) (rcv_lon rcv_lat : ℚ) (model : Option String)
    (stf : Option ℤ) (duration : Option ℚ) (gmt : String)
    (components : String) (validate : Bool) : Option Recording :=
  match get_recording_url src_lon src_lat src_depth mt rcv_lon rcv_lat
      model stf duration gmt components validate with
  | none => none
  | some _url =>
    match MOTION_SI gmt with
    | none => none
    | some u =>
      Recording.make ((components.data.zip stream).map
        (fun p => (p.1, Seismogram.from_trace p.2 u)))

/-!
## String infrastructure lemmas

The characters produced by the numeric formatters are digits, the dot,
the minus sign, the letter `e` and the plus sign; in particular none of
them is an ampersand, a comma or an equals sign, which is what the
query-string analysis below relies on.
-/

theorem strData_append (s t : String) : (s ++ t).data = s.data ++ t.data := rfl

theorem strData_mk (l : List Char) : (String.mk l).data = l := rfl

/-- The characters the numeric formatters may produce. -/
def isFmtChar (c : Char) : Bool :=
  c.isDigit || c = '.' || c = '-' || c = 'e' || c = '+'

theorem digitChar_isDigit (n : ℕ) : (digitChar n).isDigit = true := by
  have h : n % 10 < 10 := Nat.mod_lt _ (by omega)
  unfold digitChar
  set k := n % 10 with hk
  interval_cases k <;> decide

theorem digitChar_fmt (n : ℕ) : isFmtChar (digitChar n) = true := by
  simp [isFmtChar, digitChar_isDigit]

theorem natStrCore_fmt (fuel : ℕ) :
    ∀ n, ∀ c ∈ natStrCore n fuel, isFmtChar c = true := by
  induction fuel with
  | zero => intro n c hc; simp [natStrCore] at hc
  | succ f ih =>
    intro n c hc
    by_cases h : n < 10
    · simp only [natStrCore, if_pos h, List.mem_singleton] at hc
      subst hc; exact digitChar_fmt n
    · simp only [natStrCore, if_neg h, List.mem_append, List.mem_singleton] at hc
      rcases hc with hc | hc
      · exact ih _ c hc
      · subst hc; exact digitChar_fmt _

theorem natStrAux_fmt (n : ℕ) : ∀ c ∈ natStrAux n, isFmtChar c = true :=
  natStrCore_fmt (n + 1) n

theorem natStr_fmt (n : ℕ) : ∀ c ∈ (natStr n).data, isFmtChar c = true :=
  natStrAux_fmt n

theorem intStr_fmt (i : ℤ) : ∀ c ∈ (intStr i).data, isFmtChar c = true := by
  intro c hc
  unfold intStr at hc
  rw [strData_append, List.mem_append] at hc
  rcases hc with hc | hc
  · by_cases h : i < 0
    · simp only [if_pos h] at hc
      have : c = '-' := by simpa using hc
      subst this; decide
    · simp only [if_neg h] at hc
      simp at hc
  · exact natStr_fmt _ c hc

theorem padZeros_fmt (k : ℕ) (l : List Char)
    (hl : ∀ c ∈ l, isFmtChar c = true) :
    ∀ c ∈ padZeros k l, isFmtChar c = true := by
  intro c hc
  unfold padZeros at hc
  rw [List.mem_append] at hc
  rcases hc with hc | hc
  · have : c = '0' := (List.eq_of_mem_replicate hc)
    subst this; decide
  · exact hl c hc

theorem fracDigits_fmt (fuel : ℕ) :
    ∀ num den, ∀ c ∈ fracDigits num den fuel, isFmtChar c = true := by
  induction fuel with
  | zero => intro num den c hc; simp [fracDigits] at hc
  | succ f ih =>
    intro num den c hc
    by_cases h : num = 0
    · simp [fracDigits, h] at hc
    · simp only [fracDigits, if_neg h, List.mem_cons] at hc
      rcases hc with hc | hc
      · subst hc; exact digitChar_fmt _
      · exact ih _ _ c hc

theorem pyStr_fmt (q : ℚ) : ∀ c ∈ (pyStr q).data, isFmtChar c = true := by
  intro c hc
  unfold pyStr at hc
  simp only [strData_append, List.mem_append] at hc
  rcases hc with ((hc | hc) | hc) | hc
  · by_cases h : q < 0
    · simp only [if_pos h] at hc
      have : c = '-' := by simpa using hc
      subst this; decide
    · simp only [if_neg h] at hc; simp at hc
  · exact natStr_fmt _ c hc
  · have : c = '.' := by simpa using hc
    subst this; decide
  · by_cases h : (fracDigits (q.num.natAbs % q.den) q.den 64).isEmpty = true
    · simp only [if_pos h] at hc
      have : c = '0' := by simpa using hc
      subst this; decide
    · simp only [if_neg h] at hc
      exact fracDigits_fmt 64 _ _ c hc

theorem fmtF_fmt (q : ℚ) : ∀ c ∈ (fmtF q).data, isFmtChar c = true := by
  intro c hc
  unfold fmtF at hc
  simp only [strData_append, List.mem_append] at hc
  rcases hc with ((hc | hc) | hc) | hc
  · by_cases h : q < 0
    · simp only [if_pos h] at hc
      have : c = '-' := by simpa using hc
      subst this; decide
    · simp only [if_neg h] at hc; simp at hc
  · exact natStr_fmt _ c hc
  · have : c = '.' := by simpa using hc
    subst this; decide
  · exact padZeros_fmt 6 _ (natStrAux_fmt _) c hc

theorem mem_ite_sign_fmt (b : Prop) [Decidable b] (c : Char)
    (hc : c ∈ (if b then "-" else "+").data) : isFmtChar c = true := by
  split at hc
  · have hcm : c = '-' := by simpa using hc
    subst hcm; decide
  · have hcp : c = '+' := by simpa using hc
    subst hcp; decide

theorem fmtE_fmt (q : ℚ) : ∀ c ∈ (fmtE q).data, isFmtChar c = true := by
  intro c hc
  unfold fmtE at hc
  by_cases h0 : q = 0
  · rw [if_pos h0] at hc
    fin_cases hc <;> decide
  · rw [if_neg h0] at hc
    simp only [strData_append, List.mem_append] at hc
    rcases hc with (((((hc | hc) | hc) | hc) | hc) | hc) | hc
    · by_cases h : q < 0
      · simp only [if_pos h] at hc
        have : c = '-' := by simpa using hc
        subst this; decide
      · simp only [if_neg h] at hc; simp at hc
    · exact natStr_fmt _ c hc
    · have : c = '.' := by simpa using hc
      subst this; decide
    · exact padZeros_fmt 6 _ (natStrAux_fmt _) c hc
    · have : c = 'e' := by simpa using hc
      subst this; decide
    · exact mem_ite_sign_fmt _ c hc
    · exact padZeros_fmt 2 _ (natStrAux_fmt _) c hc

theorem fmt_ne_amp {c : Char} (h : isFmtChar c = true) : c ≠ '&' := by
  intro he; subst he; exact absurd h (by decide)

theorem fmt_ne_comma {c : Char} (h : isFmtChar c = true) : c ≠ ',' := by
  intro he; subst he; exact absurd h (by decide)

theorem amp_not_mem_of_fmt {l : List Char}
    (hl : ∀ c ∈ l, isFmtChar c = true) : '&' ∉ l := by
  intro h; exact fmt_ne_amp (hl _ h) rfl

theorem removePlus_subset {c : Char} {s : String}
    (h : c ∈ (removePlus s).data) : c ∈ s.data := by
  unfold removePlus at h
  rw [strData_mk] at h
  exact List.mem_of_mem_filter h

theorem removePlus_no_plus (s : String) : '+' ∉ (removePlus s).data := by
  intro h
  unfold removePlus at h
  rw [strData_mk, List.mem_filter] at h
  simpa using h.2

/-- Split a character list at every occurrence of a separator; the result
is always non-empty and contains no separator. -/
def splitChar (sep : Char) : List Char → List (List Char)
  | [] => [[]]
  | c :: cs =>
    match splitChar sep cs with
    | [] => [[]]
    | h :: t => if c = sep then [] :: h :: t else (c :: h) :: t

theorem splitChar_ne_nil (sep : Char) : ∀ l, splitChar sep l ≠ [] := by
  intro l
  cases l with
  | nil => simp [splitChar]
  | cons c cs =>
    simp only [splitChar]
    cases h : splitChar sep cs with
    | nil => simp
    | cons hd tl => by_cases hcs : c = sep <;> simp [hcs]

theorem splitChar_cons_sep (sep : Char) (r : List Char) :
    splitChar sep (sep :: r) = [] :: splitChar sep r := by
  simp only [splitChar]
  cases h : splitChar sep r with
  | nil => exact absurd h (splitChar_ne_nil sep r)
  | cons hd tl => simp

theorem splitChar_append_ne (sep : Char) (l r : List Char) (hl : sep ∉ l) :
    splitChar sep (l ++ r) = (splitChar sep r).modifyHead (l ++ ·) := by
  induction l with
  | nil =>
    cases h : splitChar sep r with
    | nil => exact absurd h (splitChar_ne_nil sep r)
    | cons hd tl => simp [h]
  | cons c cs ih =>
    have hc : c ≠ sep := fun h => hl (h ▸ List.mem_cons_self c cs)
    have hcs : sep ∉ cs := fun h => hl (List.mem_cons_of_mem _ h)
    rw [List.cons_append]
    simp only [splitChar, ih hcs]
    cases h : splitChar sep r with
    | nil => exact absurd h (splitChar_ne_nil sep r)
    | cons hd tl => simp [hc]

theorem splitChar_of_not_mem (sep : Char) (l : List Char) (hl : sep ∉ l) :
    splitChar sep l = [l] := by
  have := splitChar_append_ne sep l [] hl
  simpa [splitChar] using this

/-- Join character lists with an ampersand between consecutive entries. -/
def joinAmp : List (List Char) → List Char
  | [] => []
  | [s] => s
  | s :: s2 :: rest => s ++ '&' :: joinAmp (s2 :: rest)

theorem splitChar_joinAmp :
    ∀ segs, segs ≠ [] → (∀ s ∈ segs, '&' ∉ s) →
      splitChar '&' (joinAmp segs) = segs := by
  intro segs
  induction segs with
  | nil => intro h; exact absurd rfl h
  | cons s rest ih =>
    intro _ hfree
    cases rest with
    | nil =>
      exact splitChar_of_not_mem '&' s (hfree s (List.mem_singleton_self s))
    | cons s2 rest2 =>
      have hs : '&' ∉ s := hfree s (List.mem_cons_self _ _)
      have hrest : ∀ t ∈ s2 :: rest2, '&' ∉ t :=
        fun t ht => hfree t (List.mem_cons_of_mem _ ht)
      show splitChar '&' (s ++ '&' :: joinAmp (s2 :: rest2)) = _
      rw [splitChar_append_ne '&' s _ hs, splitChar_cons_sep,
        ih (by simp) hrest]
      simp

/-- Boolean check that the first list is an initial segment of the
second. -/
def startsL : List Char → List Char → Bool
  | [], _ => true
  | _ :: _, [] => false
  | p :: ps, c :: cs => decide (p = c) && startsL ps cs

theorem startsL_self_append (p t : List Char) : startsL p (p ++ t) = true := by
  induction p with
  | nil => rfl
  | cons c cs ih => simp [startsL, ih]

theorem startsL_append_of_le (p l t : List Char)
    (hlen : p.length ≤ l.length) : startsL p (l ++ t) = startsL p l := by
  induction p generalizing l with
  | nil => rfl
  | cons a ps ih =>
    cases l with
    | nil => simp at hlen
    | cons b ls =>
      show (decide (a = b) && startsL ps (ls ++ t))
          = (decide (a = b) && startsL ps ls)
      rw [ih ls (by simpa using hlen)]

/-- The characters of a URL after the first question mark. -/
def dropThroughQ : List Char → List Char
  | [] => []
  | c :: cs => if c = '?' then cs else dropThroughQ cs

theorem dropThroughQ_append (l r : List Char) (hl : '?' ∉ l) :
    dropThroughQ (l ++ '?' :: r) = r := by
  induction l with
  | nil => simp [dropThroughQ]
  | cons c cs ih =>
    have hc : c ≠ '?' := fun h => hl (h ▸ List.mem_cons_self c cs)
    have hcs : '?' ∉ cs := fun h => hl (List.mem_cons_of_mem _ h)
    simp [dropThroughQ, hc, ih hcs]

/-- The query part of a URL: everything after the first question mark. -/
def queryChars (url : String) : List Char := dropThroughQ url.data

/-- The query segments of a URL: the query part split at ampersands. -/
def querySegments (url : String) : List (List Char) :=
  splitChar '&' (queryChars url)

/-- A URL carries a query parameter of the given name when one of its
query segments starts with the name followed by an equals sign. -/
def hasParam (url : String) (name : String) : Bool :=
  (querySegments url).any (fun seg => startsL (name.data ++ ['=']) seg)

/-!
## Decomposition of the built URL into query segments
-/

theorem comma_not_mem_of_fmt {l : List Char}
    (hl : ∀ c ∈ l, isFmtChar c = true) : ',' ∉ l := by
  intro h; exact fmt_ne_comma (hl _ h) rfl

/-- The value part of the `sourcemomenttensor` parameter: the six
formatted components in template order, separated by commas, after plus
removal. -/
def smtValueChars (mt : MomentTensor) : List Char :=
  match mt.get_six "USE" with
  | (rr, tt, pp, rt, tp, pr) =>
    let rp := pr
    ((fmtE rr ++ "," ++ fmtE tt ++ "," ++ fmtE pp ++ "," ++ fmtE rt ++ ","
      ++ fmtE rp ++ "," ++ fmtE tp).data).filter (fun c => c ≠ '+')

theorem smtFragment_data (mt : MomentTensor) :
    (sourcemomenttensorFragment mt).data
      = '&' :: ("sourcemomenttensor=".data ++ smtValueChars mt) := by
  unfold sourcemomenttensorFragment smtValueChars removePlus
  simp only [MomentTensor.get_six]
  rw [strData_mk]
  simp [strData_append, List.filter_append, List.append_assoc]

theorem smtValueChars_no_amp (mt : MomentTensor) : '&' ∉ smtValueChars mt := by
  intro h
  unfold smtValueChars at h
  simp only [MomentTensor.get_six] at h
  have h2 := List.mem_of_mem_filter h
  simp only [strData_append, List.mem_append] at h2
  rcases h2 with ((((((((((h2 | h2) | h2) | h2) | h2) | h2) | h2) | h2)
    | h2) | h2) | h2)
  all_goals
    first
    | exact amp_not_mem_of_fmt (fmtE_fmt _) h2
    | simp at h2

theorem queryChars_append (q : String) :
    queryChars (BASE_URL ++ q) = q.data := by
  unfold queryChars
  rw [strData_append]
  have hb : BASE_URL.data
      = "http://service.iris.edu/irisws/syngine/1/query".data ++ ['?'] := by
    decide
  rw [hb, List.append_assoc, List.singleton_append]
  exact dropThroughQ_append _ _ (by decide)

theorem unitsWord_mem {gmt uw : String} (h : unitsWord gmt = some uw) :
    uw = "displacement" ∨ uw = "velocity" ∨ uw = "acceleration" := by
  unfold unitsWord at h
  split_ifs at h
  · exact Or.inl (Option.some.inj h).symm
  · exact Or.inr (Or.inl (Option.some.inj h).symm)
  · exact Or.inr (Or.inr (Option.some.inj h).symm)

theorem get_recording_url_shape
    (src_lon src_lat src_depth : ℚ) (mt : MomentTensor) (rcv_lon rcv_lat : ℚ)
    (model : Option String) (stf : Option ℤ) (duration : Option ℚ)
    (gmt components : String) (validate : Bool) (url : String)
    (h : get_recording_url src_lon src_lat src_depth mt rcv_lon rcv_lat
      model stf duration gmt components validate = some url) :
    ∃ uw, unitsWord gmt = some uw ∧
      url = BASE_URL ++ "model=" ++ modelWord model
        ++ "&sourcelongitude=" ++ fmtF src_lon
        ++ "&sourcelatitude=" ++ fmtF src_lat
        ++ "&sourcedepthinmeters=" ++ pyStr src_depth
        ++ sourcemomenttensorFragment mt
        ++ stfFragment stf
        ++ "&receiverlongitude=" ++ pyStr rcv_lon
        ++ "&receiverlatitude=" ++ pyStr rcv_lat
        ++ durationFragment duration
        ++ "&units=" ++ uw
        ++ "&components=" ++ components
        ++ "&format=miniseed" := by
  unfold get_recording_url at h
  split at h
  · exact absurd h (by simp)
  · cases huw : unitsWord gmt with
    | none => rw [huw] at h; exact absurd h (by simp)
    | some uw =>
      rw [huw] at h
      exact ⟨uw, rfl, (Option.some.inj h).symm⟩

/-- The query segments a successful `get_recording_url` call produces, in
order. -/
def syngineSegments (src_lon src_lat src_depth : ℚ) (mt : MomentTensor)
    (rcv_lon rcv_lat : ℚ) (model : Option String) (stf : Option ℤ)
    (duration : Option ℚ) (uw components : String) : List (List Char) :=
  [ "model=".data ++ (modelWord model).data,
    "sourcelongitude=".data ++ (fmtF src_lon).data,
    "sourcelatitude=".data ++ (fmtF src_lat).data,
    "sourcedepthinmeters=".data ++ (pyStr src_depth).data,
    "sourcemomenttensor=".data ++ smtValueChars mt ]
  ++ (match stf with
      | none => []
      | some s => ["sourcewidth=".data ++ (intStr s).data])
  ++ [ "receiverlongitude=".data ++ (pyStr rcv_lon).data,
       "receiverlatitude=".data ++ (pyStr rcv_lat).data ]
  ++ (match duration with
      | none => []
      | some d => ["endtime=".data ++ (pyStr d).data])
  ++ [ "units=".data ++ uw.data,
       "components=".data ++ components.data,
       "format=miniseed".data ]

theorem amp_not_mem_append {l1 l2 : List Char}
    (h1 : '&' ∉ l1) (h2 : '&' ∉ l2) : '&' ∉ l1 ++ l2 := by
  rw [List.mem_append]
  rintro (h | h)
  · exact h1 h
  · exact h2 h

theorem syngineSegments_amp_free (src_lon src_lat src_depth : ℚ)
    (mt : MomentTensor) (rcv_lon rcv_lat : ℚ) (model : Option String)
    (stf : Option ℤ) (duration : Option ℚ) (gmt uw components : String)
    (huw : unitsWord gmt = some uw)
    (hmodel : '&' ∉ (modelWord model).data)
    (hcomp : '&' ∉ components.data) :
    ∀ s ∈ syngineSegments src_lon src_lat src_depth mt rcv_lon rcv_lat
      model stf duration uw components, '&' ∉ s := by
  have huwdata : '&' ∉ uw.data := by
    rcases unitsWord_mem huw with h | h | h <;> subst h <;> decide
  intro s hs
  rcases stf with _ | w <;> rcases duration with _ | d
  · simp only [syngineSegments, List.mem_append, List.mem_cons,
      List.mem_singleton, List.not_mem_nil, or_false, false_or, or_assoc] at hs
    rcases hs with hs | hs | hs | hs | hs | hs | hs | hs | hs | hs
    all_goals subst hs
    exacts [amp_not_mem_append (by decide) hmodel,
      amp_not_mem_append (by decide) (amp_not_mem_of_fmt (fmtF_fmt _)),
      amp_not_mem_append (by decide) (amp_not_mem_of_fmt (fmtF_fmt _)),
      amp_not_mem_append (by decide) (amp_not_mem_of_fmt (pyStr_fmt _)),
      amp_not_mem_append (by decide) (smtValueChars_no_amp mt),
      amp_not_mem_append (by decide) (amp_not_mem_of_fmt (pyStr_fmt _)),
      amp_not_mem_append (by decide) (amp_not_mem_of_fmt (pyStr_fmt _)),
      amp_not_mem_append (by decide) huwdata,
      amp_not_mem_append (by decide) hcomp,
      by decide]
  · simp only [syngineSegments, List.mem_append, List.mem_cons,
      List.mem_singleton, List.not_mem_nil, or_false, false_or, or_assoc] at hs
    rcases hs with hs | hs | hs | hs | hs | hs | hs | hs | hs | hs | hs
    all_goals subst hs
    exacts [amp_not_mem_append (by decide) hmodel,
      amp_not_mem_append (by decide) (amp_not_mem_of_fmt (fmtF_fmt _)),
      amp_not_mem_append (by decide) (amp_not_mem_of_fmt (fmtF_fmt _)),
      amp_not_mem_append (by decide) (amp_not_mem_of_fmt (pyStr_fmt _)),
      amp_not_mem_append (by decide) (smtValueChars_no_amp mt),
      amp_not_mem_append (by decide) (amp_not_mem_of_fmt (pyStr_fmt _)),
      amp_not_mem_append (by decide) (amp_not_mem_of_fmt (pyStr_fmt _)),
      amp_not_mem_append (by decide) (amp_not_mem_of_fmt (pyStr_fmt _)),
      amp_not_mem_append (by decide) huwdata,
      amp_not_mem_append (by decide) hcomp,
      by decide]
  · simp only [syngineSegments, List.mem_append, List.mem_cons,
      List.mem_singleton, List.not_mem_nil, or_false, false_or, or_assoc] at hs
    rcases hs with hs | hs | hs | hs | hs | hs | hs | hs | hs | hs | hs
    all_goals subst hs
    exacts [amp_not_mem_append (by decide) hmodel,
      amp_not_mem_append (by decide) (amp_not_mem_of_fmt (fmtF_fmt _)),
      amp_not_mem_append (by decide) (amp_not_mem_of_fmt (fmtF_fmt _)),
      amp_not_mem_append (by decide) (amp_not_mem_of_fmt (pyStr_fmt _)),
      amp_not_mem_append (by decide) (smtValueChars_no_amp mt),
      amp_not_mem_append (by decide) (amp_not_mem_of_fmt (intStr_fmt _)),
      amp_not_mem_append (by decide) (amp_not_mem_of_fmt (pyStr_fmt _)),
      amp_not_mem_append (by decide) (amp_not_mem_of_fmt (pyStr_fmt _)),
      amp_not_mem_append (by decide) huwdata,
      amp_not_mem_append (by decide) hcomp,
      by decide]
  · simp only [syngineSegments, List.mem_append, List.mem_cons,
      List.mem_singleton, List.not_mem_nil, or_false, false_or, or_assoc] at hs
    rcases hs with hs | hs | hs | hs | hs | hs | hs | hs | hs | hs | hs | hs
    all_goals subst hs
    exacts [amp_not_mem_append (by decide) hmodel,
      amp_not_mem_append (by decide) (amp_not_mem_of_fmt (fmtF_fmt _)),
      amp_not_mem_append (by decide) (amp_not_mem_of_fmt (fmtF_fmt _)),
      amp_not_mem_append (by decide) (amp_not_mem_of_fmt (pyStr_fmt _)),
      amp_not_mem_append (by decide) (smtValueChars_no_amp mt),
      amp_not_mem_append (by decide) (amp_not_mem_of_fmt (intStr_fmt _)),
      amp_not_mem_append (by decide) (amp_not_mem_of_fmt (pyStr_fmt _)),
      amp_not_mem_append (by decide) (amp_not_mem_of_fmt (pyStr_fmt _)),
      amp_not_mem_append (by decide) (amp_not_mem_of_fmt (pyStr_fmt _)),
      amp_not_mem_append (by decide) huwdata,
      amp_not_mem_append (by decide) hcomp,
      by decide]

theorem dropThroughQ_base (r : List Char) :
    dropThroughQ (BASE_URL.data ++ r) = r := by
  have hbase : BASE_URL.data
      = "http://service.iris.edu/irisws/syngine/1/query".data ++ ['?'] := by
    decide
  rw [hbase, List.append_assoc, List.singleton_append]
  exact dropThroughQ_append _ _ (by decide)

theorem queryChars_join (src_lon src_lat src_depth : ℚ) (mt : MomentTensor)
    (rcv_lon rcv_lat : ℚ) (model : Option String) (stf : Option ℤ)
    (duration : Option ℚ) (uw components : String) :
    queryChars (BASE_URL ++ "model=" ++ modelWord model
        ++ "&sourcelongitude=" ++ fmtF src_lon
        ++ "&sourcelatitude=" ++ fmtF src_lat
        ++ "&sourcedepthinmeters=" ++ pyStr src_depth
        ++ sourcemomenttensorFragment mt
        ++ stfFragment stf
        ++ "&receiverlongitude=" ++ pyStr rcv_lon
        ++ "&receiverlatitude=" ++ pyStr rcv_lat
        ++ durationFragment duration
        ++ "&units=" ++ uw
        ++ "&components=" ++ components
        ++ "&format=miniseed")
      = joinAmp (syngineSegments src_lon src_lat src_depth mt rcv_lon
          rcv_lat model stf duration uw components) := by
  have hempty : ("" : String).data = [] := rfl
  rcases stf with _ | w <;> rcases duration with _ | d
  all_goals (
    unfold queryChars;
    simp only [strData_append, stfFragment, durationFragment, hempty];
    simp only [List.append_assoc];
    rw [dropThroughQ_base];
    simp only [smtFragment_data, syngineSegments, joinAmp, strData_append,
      List.append_assoc, List.cons_append, List.nil_append])

/-- The query segments of every URL returned by `get_recording_url`, as
long as the model word and the components selector contain no ampersand of
their own. -/
theorem querySegments_of_url (src_lon src_lat src_depth : ℚ)
    (mt : MomentTensor) (rcv_lon rcv_lat : ℚ) (model : Option String)
    (stf : Option ℤ) (duration : Option ℚ) (gmt uw components : String)
    (validate : Bool) (url : String)
    (h : get_recording_url src_lon src_lat src_depth mt rcv_lon rcv_lat
      model stf duration gmt components validate = some url)
    (huw : unitsWord gmt = some uw)
    (hmodel : '&' ∉ (modelWord model).data)
    (hcomp : '&' ∉ components.data) :
    querySegments url = syngineSegments src_lon src_lat src_depth mt
      rcv_lon rcv_lat model stf duration uw components := by
  obtain ⟨uw2, huw2, hurl⟩ :=
    get_recording_url_shape _ _ _ _ _ _ _ _ _ _ _ _ _ h
  rw [huw] at huw2
  obtain rfl := Option.some.inj huw2
  subst hurl
  unfold querySegments
  rw [queryChars_join]
  exact splitChar_joinAmp _ (by simp [syngineSegments])
    (syngineSegments_amp_free _ _ _ _ _ _ _ _ _ _ _ _ huw hmodel hcomp)

/-!
## Claim theorems
-/

/-- A concrete moment tensor used in witnesses and counterexamples. -/
def mtEx : MomentTensor := ⟨1, 2, 3, 4, 5, 6⟩

/-- Claim C7: a Seismogram with sample interval 0.005, unit m/s2 and an
amplitude sequence whose largest absolute value is 3.8996 has peak ground
motion 3.8996 in its own unit (with or without an explicit target unit),
and its ground-motion type is acceleration. -/
theorem c7_seismogram_pgm (amps : List ℚ)
    (h : (Seismogram.mk 0.005 amps "m/s2").pgm = 3.8996) :
    (Seismogram.mk 0.005 amps "m/s2").get_pgm none = some 3.8996
    ∧ (Seismogram.mk 0.005 amps "m/s2").get_pgm (some "m/s2")
        = some 3.8996
    ∧ (Seismogram.mk 0.005 amps "m/s2").gmt = some "acceleration" := by
  refine ⟨?_, ?_, ?_⟩
  · simp [Seismogram.get_pgm, h]
  · simp [Seismogram.get_pgm, convert, kind_of, unitScale, h]
  · simp [Seismogram.gmt, kind_of]

theorem c7_seismogram_pgm_witness :
    (Seismogram.mk 0.005 [0, 1, -3.8996, 2] "m/s2").pgm = 3.8996
    ∧ ((Seismogram.mk 0.005 [0, 1, -3.8996, 2] "m/s2").get_pgm none
          = some 3.8996
      ∧ (Seismogram.mk 0.005 [0, 1, -3.8996, 2] "m/s2").get_pgm
          (some "m/s2") = some 3.8996
      ∧ (Seismogram.mk 0.005 [0, 1, -3.8996, 2] "m/s2").gmt
          = some "acceleration") :=
  ⟨by decide, c7_seismogram_pgm _ (by decide)⟩

/-- Claim C8: the request-URL construction is deterministic: two calls of
`get_recording_url` with equal argument values return identical results.
(Absence of I/O and of mutation holds by construction of the embedding:
the function is a pure total function of its arguments.) -/
theorem c8_get_recording_url_deterministic
    (src_lon src_lat src_depth : ℚ) (mt : MomentTensor)
    (rcv_lon rcv_lat : ℚ) (model : Option String) (stf : Option ℤ)
    (duration : Option ℚ) (gmt components : String) (validate : Bool)
    (src_lon' src_lat' src_depth' : ℚ) (mt' : MomentTensor)
    (rcv_lon' rcv_lat' : ℚ) (model' : Option String) (stf' : Option ℤ)
    (duration' : Option ℚ) (gmt' components' : String) (validate' : Bool)
    (h : (src_lon, src_lat, src_depth, mt, rcv_lon, rcv_lat, model, stf,
          duration, gmt, components, validate)
        = (src_lon', src_lat', src_depth', mt', rcv_lon', rcv_lat', model',
          stf', duration', gmt', components', validate')) :
    get_recording_url src_lon src_lat src_depth mt rcv_lon rcv_lat model
        stf duration gmt components validate
      = get_recording_url src_lon' src_lat' src_depth' mt' rcv_lon'
        rcv_lat' model' stf' duration' gmt' components' validate' := by
  simp only [Prod.mk.injEq] at h
  obtain ⟨rfl, rfl, rfl, rfl, rfl, rfl, rfl, rfl, rfl, rfl, rfl, rfl⟩ := h
  rfl

theorem c8_get_recording_url_deterministic_witness :
    ((1 : ℚ), (2 : ℚ), (1000 : ℚ), mtEx, (3 : ℚ), (4 : ℚ),
        (none : Option String), (none : Option ℤ), (none : Option ℚ),
        "dis", "ZRT", true)
      = ((1 : ℚ), (2 : ℚ), (1000 : ℚ), mtEx, (3 : ℚ), (4 : ℚ),
        (none : Option String), (none : Option ℤ), (none : Option ℚ),
        "dis", "ZRT", true)
    ∧ get_recording_url 1 2 1000 mtEx 3 4 none none none "dis" "ZRT" true
      = get_recording_url 1 2 1000 mtEx 3 4 none none none "dis" "ZRT"
        true :=
  ⟨rfl, c8_get_recording_url_deterministic 1 2 1000 mtEx 3 4 none none
    none "dis" "ZRT" true 1 2 1000 mtEx 3 4 none none none "dis" "ZRT"
    true rfl⟩

/-- Claim C3 (code bug): a latitude of 100 degrees is outside the valid
latitude range, yet the validated call accepts it and returns a URL,
because the source checks both latitudes with the longitude range
predicate `is_lon` (it imports `is_lat` and never applies it). -/
theorem c3_latitude_checked_with_is_lon :
    is_lat 100 = false ∧ is_lon 100 = true
    ∧ (get_recording_url 0 100 1000 mtEx 0 0 none none none "dis" "ZRT"
        true).isSome = true := by
  decide

/-- Claim C4 counterexample: with validation disabled, a component
selector that is neither ZRT nor ZNE still yields a request URL. -/
theorem c4_invalid_components_url_counterexample :
    (get_recording_url 1 2 1000 mtEx 3 4 none none none "dis" "ABC"
      false).isSome = true := by
  decide

/-- Claim C4 amended: with validation enabled, a call of
`get_recording_url` or `get_recording` with an unrecognized gmt selector,
a component selector other than ZRT or ZNE, or a geophysical value
rejected by the source checks (longitude or latitude outside the `is_lon`
range, non-positive depth, non-positive stf, non-positive duration) fails
and yields neither a URL nor a Recording. -/
theorem c4_invalid_input_fails_when_validated (src_lon src_lat src_depth : ℚ)
    (mt : MomentTensor) (rcv_lon rcv_lat : ℚ) (model : Option String)
    (stf : Option ℤ) (duration : Option ℚ) (gmt components : String)
    (stream : List Trace)
    (hbad : (MOTION_SI gmt).isSome = false
      ∨ (components ≠ "ZRT" ∧ components ≠ "ZNE")
      ∨ is_lon src_lon = false ∨ is_lon src_lat = false
      ∨ is_pos_number src_depth = false
      ∨ is_lon rcv_lon = false ∨ is_lon rcv_lat = false
      ∨ (∃ s, stf = some s ∧ is_pos_integer s = false)
      ∨ (∃ d, duration = some d ∧ is_pos_number d = false)) :
    get_recording_url src_lon src_lat src_depth mt rcv_lon rcv_lat model
      stf duration gmt components true = none
    ∧ get_recording stream src_lon src_lat src_depth mt rcv_lon rcv_lat
      model stf duration gmt components true = none := by
  have hsv : syngineValid src_lon src_lat src_depth rcv_lon rcv_lat stf
      duration gmt components = false := by
    rcases hbad with h | ⟨h1, h2⟩ | h | h | h | h | h | ⟨s, hs, h⟩
      | ⟨d, hd, h⟩
    · simp [syngineValid, h]
    · simp [syngineValid, h1, h2]
    · simp [syngineValid, h]
    · simp [syngineValid, h]
    · simp [syngineValid, h]
    · simp [syngineValid, h]
    · simp [syngineValid, h]
    · subst hs; simp [syngineValid, h]
    · subst hd; simp [syngineValid, h]
  have hurl : get_recording_url src_lon src_lat src_depth mt rcv_lon
      rcv_lat model stf duration gmt components true = none := by
    simp [get_recording_url, hsv]
  exact ⟨hurl, by simp [get_recording, hurl]⟩

theorem c4_invalid_input_fails_when_validated_witness :
    get_recording_url 1 2 1000 mtEx 3 4 none none none "xxx" "ZRT" true
      = none
    ∧ get_recording [] 1 2 1000 mtEx 3 4 none none none "xxx" "ZRT" true
      = none :=
  c4_invalid_input_fails_when_validated 1 2 1000 mtEx 3 4 none none none
    "xxx" "ZRT" [] (Or.inl (by decide))

/-- Claim C2: the URL returned by `get_recording_url` contains the
`sourcemomenttensor` fragment, and that fragment — the six components
formatted in scientific form with every plus sign removed — contains no
plus character. -/
theorem c2_sourcemomenttensor_no_plus (src_lon src_lat src_depth : ℚ)
    (mt : MomentTensor) (rcv_lon rcv_lat : ℚ) (model : Option String)
    (stf : Option ℤ) (duration : Option ℚ) (gmt components : String)
    (validate : Bool) (url : String)
    (h : get_recording_url src_lon src_lat src_depth mt rcv_lon rcv_lat
      model stf duration gmt components validate = some url) :
    (∃ p s, url.data = p ++ (sourcemomenttensorFragment mt).data ++ s)
    ∧ ∀ c ∈ (sourcemomenttensorFragment mt).data, c ≠ '+' := by
  obtain ⟨uw, huw, hurl⟩ :=
    get_recording_url_shape _ _ _ _ _ _ _ _ _ _ _ _ _ h
  subst hurl
  constructor
  · refine ⟨(BASE_URL ++ "model=" ++ modelWord model ++ "&sourcelongitude="
      ++ fmtF src_lon ++ "&sourcelatitude=" ++ fmtF src_lat
      ++ "&sourcedepthinmeters=" ++ pyStr src_depth).data,
      (stfFragment stf ++ "&receiverlongitude=" ++ pyStr rcv_lon
      ++ "&receiverlatitude=" ++ pyStr rcv_lat ++ durationFragment duration
      ++ "&units=" ++ uw ++ "&components=" ++ components
      ++ "&format=miniseed").data, ?_⟩
    simp only [strData_append, List.append_assoc]
  · intro c hc heq
    subst heq
    have hp : '+' ∉ (sourcemomenttensorFragment mt).data := by
      unfold sourcemomenttensorFragment
      simp only [MomentTensor.get_six]
      exact removePlus_no_plus _
    exact hp hc

theorem c2_sourcemomenttensor_no_plus_witness :
    get_recording_url 1 2 1000 mtEx 3 4 none none none "dis" "ZRT" true
      = some "http://service.iris.edu/irisws/syngine/1/query?model=ak135f_2s&sourcelongitude=1.000000&sourcelatitude=2.000000&sourcedepthinmeters=1000.0&sourcemomenttensor=1.000000e00,2.000000e00,3.000000e00,4.000000e00,6.000000e00,5.000000e00&receiverlongitude=3.0&receiverlatitude=4.0&units=displacement&components=ZRT&format=miniseed"
    ∧ ((∃ p s,
        ("http://service.iris.edu/irisws/syngine/1/query?model=ak135f_2s&sourcelongitude=1.000000&sourcelatitude=2.000000&sourcedepthinmeters=1000.0&sourcemomenttensor=1.000000e00,2.000000e00,3.000000e00,4.000000e00,6.000000e00,5.000000e00&receiverlongitude=3.0&receiverlatitude=4.0&units=displacement&components=ZRT&format=miniseed" : String).data
          = p ++ (sourcemomenttensorFragment mtEx).data ++ s)
      ∧ ∀ c ∈ (sourcemomenttensorFragment mtEx).data, c ≠ '+') :=
  ⟨by decide,
    c2_sourcemomenttensor_no_plus 1 2 1000 mtEx 3 4 none none none "dis"
      "ZRT" true _ (by decide)⟩

/-- Claim C10: a successful call with no model argument produces a URL
whose model parameter is the module default ak135f_2s; a successful call
with a non-empty model string produces a URL carrying exactly that
string as its model parameter. -/
theorem c10_model_default (src_lon src_lat src_depth : ℚ)
    (mt : MomentTensor) (rcv_lon rcv_lat : ℚ) (model : Option String)
    (stf : Option ℤ) (duration : Option ℚ) (gmt components : String)
    (validate : Bool) (url : String)
    (h : get_recording_url src_lon src_lat src_depth mt rcv_lon rcv_lat
      model stf duration gmt components validate = some url) :
    (model = none → ∃ r, url.data
        = "http://service.iris.edu/irisws/syngine/1/query?model=ak135f_2s&sourcelongitude=".data
          ++ r)
    ∧ (∀ m, model = some m → m ≠ "" → ∃ r, url.data
        = "http://service.iris.edu/irisws/syngine/1/query?model=".data
          ++ m.data ++ "&sourcelongitude=".data ++ r) := by
  obtain ⟨uw, huw, hurl⟩ :=
    get_recording_url_shape _ _ _ _ _ _ _ _ _ _ _ _ _ h
  subst hurl
  constructor
  · rintro rfl
    refine ⟨(fmtF src_lon ++ "&sourcelatitude=" ++ fmtF src_lat
      ++ "&sourcedepthinmeters=" ++ pyStr src_depth
      ++ sourcemomenttensorFragment mt ++ stfFragment stf
      ++ "&receiverlongitude=" ++ pyStr rcv_lon ++ "&receiverlatitude="
      ++ pyStr rcv_lat ++ durationFragment duration ++ "&units=" ++ uw
      ++ "&components=" ++ components ++ "&format=miniseed").data, ?_⟩
    simp [strData_append, List.append_assoc, modelWord, DEFAULT_MODEL,
      BASE_URL]
  · rintro m rfl hne
    refine ⟨(fmtF src_lon ++ "&sourcelatitude=" ++ fmtF src_lat
      ++ "&sourcedepthinmeters=" ++ pyStr src_depth
      ++ sourcemomenttensorFragment mt ++ stfFragment stf
      ++ "&receiverlongitude=" ++ pyStr rcv_lon ++ "&receiverlatitude="
      ++ pyStr rcv_lat ++ durationFragment duration ++ "&units=" ++ uw
      ++ "&components=" ++ components ++ "&format=miniseed").data, ?_⟩
    simp [strData_append, List.append_assoc, modelWord, hne, BASE_URL]

theorem c10_model_default_witness :
    get_recording_url 1 2 1000 mtEx 3 4 none none none "dis" "ZRT" true
      = some "http://service.iris.edu/irisws/syngine/1/query?model=ak135f_2s&sourcelongitude=1.000000&sourcelatitude=2.000000&sourcedepthinmeters=1000.0&sourcemomenttensor=1.000000e00,2.000000e00,3.000000e00,4.000000e00,6.000000e00,5.000000e00&receiverlongitude=3.0&receiverlatitude=4.0&units=displacement&components=ZRT&format=miniseed"
    ∧ (((none : Option String) = none → ∃ r,
        ("http://service.iris.edu/irisws/syngine/1/query?model=ak135f_2s&sourcelongitude=1.000000&sourcelatitude=2.000000&sourcedepthinmeters=1000.0&sourcemomenttensor=1.000000e00,2.000000e00,3.000000e00,4.000000e00,6.000000e00,5.000000e00&receiverlongitude=3.0&receiverlatitude=4.0&units=displacement&components=ZRT&format=miniseed" : String).data
          = "http://service.iris.edu/irisws/syngine/1/query?model=ak135f_2s&sourcelongitude=".data
            ++ r)
      ∧ (∀ m, (none : Option String) = some m → m ≠ "" → ∃ r,
        ("http://service.iris.edu/irisws/syngine/1/query?model=ak135f_2s&sourcelongitude=1.000000&sourcelatitude=2.000000&sourcedepthinmeters=1000.0&sourcemomenttensor=1.000000e00,2.000000e00,3.000000e00,4.000000e00,6.000000e00,5.000000e00&receiverlongitude=3.0&receiverlatitude=4.0&units=displacement&components=ZRT&format=miniseed" : String).data
          = "http://service.iris.edu/irisws/syngine/1/query?model=".data
            ++ m.data ++ "&sourcelongitude=".data ++ r)) :=
  ⟨by decide,
    c10_model_default 1 2 1000 mtEx 3 4 none none none "dis" "ZRT" true _
      (by decide)⟩

/-- Claim C5: a successful call with gmt selector dis, vel or acc
produces a URL ending with the matching units word (displacement,
velocity, acceleration), followed by the components selector and the
miniseed format parameter. -/
theorem c5_units_word (src_lon src_lat src_depth : ℚ) (mt : MomentTensor)
    (rcv_lon rcv_lat : ℚ) (model : Option String) (stf : Option ℤ)
    (duration : Option ℚ) (gmt components : String) (validate : Bool)
    (url : String)
    (h : get_recording_url src_lon src_lat src_depth mt rcv_lon rcv_lat
      model stf duration gmt components validate = some url) :
    (gmt = "dis" → ∃ p, url.data
        = p ++ "&units=displacement&components=".data ++ components.data
          ++ "&format=miniseed".data)
    ∧ (gmt = "vel" → ∃ p, url.data
        = p ++ "&units=velocity&components=".data ++ components.data
          ++ "&format=miniseed".data)
    ∧ (gmt = "acc" → ∃ p, url.data
        = p ++ "&units=acceleration&components=".data ++ components.data
          ++ "&format=miniseed".data) := by
  obtain ⟨uw, huw, hurl⟩ :=
    get_recording_url_shape _ _ _ _ _ _ _ _ _ _ _ _ _ h
  subst hurl
  refine ⟨?_, ?_, ?_⟩ <;> rintro rfl <;>
    obtain rfl := Option.some.inj huw <;>
    refine ⟨(BASE_URL ++ "model=" ++ modelWord model ++ "&sourcelongitude="
      ++ fmtF src_lon ++ "&sourcelatitude=" ++ fmtF src_lat
      ++ "&sourcedepthinmeters=" ++ pyStr src_depth
      ++ sourcemomenttensorFragment mt ++ stfFragment stf
      ++ "&receiverlongitude=" ++ pyStr rcv_lon ++ "&receiverlatitude="
      ++ pyStr rcv_lat ++ durationFragment duration).data, ?_⟩ <;>
    simp [strData_append, List.append_assoc]

theorem c5_units_word_witness :
    get_recording_url 1 2 1000 mtEx 3 4 none none none "dis" "ZRT" true
      = some "http://service.iris.edu/irisws/syngine/1/query?model=ak135f_2s&sourcelongitude=1.000000&sourcelatitude=2.000000&sourcedepthinmeters=1000.0&sourcemomenttensor=1.000000e00,2.000000e00,3.000000e00,4.000000e00,6.000000e00,5.000000e00&receiverlongitude=3.0&receiverlatitude=4.0&units=displacement&components=ZRT&format=miniseed"
    ∧ ("dis" = "dis" → ∃ p,
        ("http://service.iris.edu/irisws/syngine/1/query?model=ak135f_2s&sourcelongitude=1.000000&sourcelatitude=2.000000&sourcedepthinmeters=1000.0&sourcemomenttensor=1.000000e00,2.000000e00,3.000000e00,4.000000e00,6.000000e00,5.000000e00&receiverlongitude=3.0&receiverlatitude=4.0&units=displacement&components=ZRT&format=miniseed" : String).data
          = p ++ "&units=displacement&components=".data ++ "ZRT".data
            ++ "&format=miniseed".data) :=
  ⟨by decide,
    (c5_units_word 1 2 1000 mtEx 3 4 none none none "dis" "ZRT" true _
      (by decide)).1⟩

/-- Join character lists with a separator between consecutive entries. -/
def joinSep (sep : Char) : List (List Char) → List Char
  | [] => []
  | [s] => s
  | s :: s2 :: rest => s ++ sep :: joinSep sep (s2 :: rest)

theorem splitChar_joinSep (sep : Char) :
    ∀ segs, segs ≠ [] → (∀ s ∈ segs, sep ∉ s) →
      splitChar sep (joinSep sep segs) = segs := by
  intro segs
  induction segs with
  | nil => intro h; exact absurd rfl h
  | cons s rest ih =>
    intro _ hfree
    cases rest with
    | nil =>
      exact splitChar_of_not_mem sep s (hfree s (List.mem_singleton_self s))
    | cons s2 rest2 =>
      have hs : sep ∉ s := hfree s (List.mem_cons_self _ _)
      have hrest : ∀ t ∈ s2 :: rest2, sep ∉ t :=
        fun t ht => hfree t (List.mem_cons_of_mem _ ht)
      show splitChar sep (s ++ sep :: joinSep sep (s2 :: rest2)) = _
      rw [splitChar_append_ne sep s _ hs, splitChar_cons_sep,
        ih (by simp) hrest]
      simp

theorem comma_not_mem_filtered (x : ℚ) :
    ',' ∉ (fmtE x).data.filter (fun c => c ≠ '+') := fun h =>
  comma_not_mem_of_fmt (fmtE_fmt x) (List.mem_of_mem_filter h)

/-- The `sourcemomenttensor` parameter value that claim C1 describes: the
six components in the `get_six` convention order rr, tt, pp, rt, tp, pr
(formatted and plus-stripped like the code's value), for comparison with
the value the code builds. -/
def smtSpecValueChars (mt : MomentTensor) : List Char :=
  match mt.get_six "USE" with
  | (rr, tt, pp, rt, tp, pr) =>
    ((fmtE rr ++ "," ++ fmtE tt ++ "," ++ fmtE pp ++ "," ++ fmtE rt ++ ","
      ++ fmtE tp ++ "," ++ fmtE pr).data).filter (fun c => c ≠ '+')

/-- Claim C1 counterexample: at a moment tensor whose theta-phi and
phi-radial components differ (5 and 6), the built URL's
`sourcemomenttensor` value is not the six components in the claimed
order rr, tt, pp, rt, tp, pr — the URL visibly carries
`...,4.000000e00,6.000000e00,5.000000e00`. -/
theorem c1_mt_order_counterexample :
    get_recording_url 1 2 1000 mtEx 3 4 none none none "dis" "ZRT" true
      = some "http://service.iris.edu/irisws/syngine/1/query?model=ak135f_2s&sourcelongitude=1.000000&sourcelatitude=2.000000&sourcedepthinmeters=1000.0&sourcemomenttensor=1.000000e00,2.000000e00,3.000000e00,4.000000e00,6.000000e00,5.000000e00&receiverlongitude=3.0&receiverlatitude=4.0&units=displacement&components=ZRT&format=miniseed"
    ∧ smtValueChars mtEx ≠ smtSpecValueChars mtEx := by
  decide

/-- Claim C1 amended: the URL carries the `sourcemomenttensor` parameter
whose value consists of exactly the six moment-tensor components, but in
the order rr, tt, pp, rt, rp (equal to pr by symmetry), tp — the fifth
and sixth components of the `get_six` order are exchanged. -/
theorem c1_mt_order_amended (src_lon src_lat src_depth : ℚ)
    (mt : MomentTensor) (rcv_lon rcv_lat : ℚ) (model : Option String)
    (stf : Option ℤ) (duration : Option ℚ) (gmt components : String)
    (validate : Bool) (url : String)
    (h : get_recording_url src_lon src_lat src_depth mt rcv_lon rcv_lat
      model stf duration gmt components validate = some url) :
    (∃ p s, url.data
        = p ++ ('&' :: ("sourcemomenttensor=".data ++ smtValueChars mt))
          ++ s)
    ∧ splitChar ',' (smtValueChars mt)
      = [(fmtE mt.rr).data.filter (fun c => c ≠ '+'),
         (fmtE mt.tt).data.filter (fun c => c ≠ '+'),
         (fmtE mt.pp).data.filter (fun c => c ≠ '+'),
         (fmtE mt.rt).data.filter (fun c => c ≠ '+'),
         (fmtE mt.pr).data.filter (fun c => c ≠ '+'),
         (fmtE mt.tp).data.filter (fun c => c ≠ '+')] := by
  obtain ⟨uw, huw, hurl⟩ :=
    get_recording_url_shape _ _ _ _ _ _ _ _ _ _ _ _ _ h
  subst hurl
  constructor
  · refine ⟨(BASE_URL ++ "model=" ++ modelWord model ++ "&sourcelongitude="
      ++ fmtF src_lon ++ "&sourcelatitude=" ++ fmtF src_lat
      ++ "&sourcedepthinmeters=" ++ pyStr src_depth).data,
      (stfFragment stf ++ "&receiverlongitude=" ++ pyStr rcv_lon
      ++ "&receiverlatitude=" ++ pyStr rcv_lat ++ durationFragment duration
      ++ "&units=" ++ uw ++ "&components=" ++ components
      ++ "&format=miniseed").data, ?_⟩
    rw [← smtFragment_data]
    simp only [strData_append, List.append_assoc]
  · have hval : smtValueChars mt
        = joinSep ',' [(fmtE mt.rr).data.filter (fun c => c ≠ '+'),
            (fmtE mt.tt).data.filter (fun c => c ≠ '+'),
            (fmtE mt.pp).data.filter (fun c => c ≠ '+'),
            (fmtE mt.rt).data.filter (fun c => c ≠ '+'),
            (fmtE mt.pr).data.filter (fun c => c ≠ '+'),
            (fmtE mt.tp).data.filter (fun c => c ≠ '+')] := by
      unfold smtValueChars
      simp only [MomentTensor.get_six]
      simp [strData_append, List.filter_append, joinSep, List.append_assoc]
    rw [hval]
    refine splitChar_joinSep ',' _ (by simp) ?_
    intro s hs
    simp only [List.mem_cons, List.not_mem_nil, or_false] at hs
    rcases hs with hs | hs | hs | hs | hs | hs <;> subst hs <;>
      exact comma_not_mem_filtered _

theorem c1_mt_order_amended_witness :
    get_recording_url 1 2 1000 mtEx 3 4 none none none "dis" "ZRT" true
      = some "http://service.iris.edu/irisws/syngine/1/query?model=ak135f_2s&sourcelongitude=1.000000&sourcelatitude=2.000000&sourcedepthinmeters=1000.0&sourcemomenttensor=1.000000e00,2.000000e00,3.000000e00,4.000000e00,6.000000e00,5.000000e00&receiverlongitude=3.0&receiverlatitude=4.0&units=displacement&components=ZRT&format=miniseed"
    ∧ ((∃ p s,
        ("http://service.iris.edu/irisws/syngine/1/query?model=ak135f_2s&sourcelongitude=1.000000&sourcelatitude=2.000000&sourcedepthinmeters=1000.0&sourcemomenttensor=1.000000e00,2.000000e00,3.000000e00,4.000000e00,6.000000e00,5.000000e00&receiverlongitude=3.0&receiverlatitude=4.0&units=displacement&components=ZRT&format=miniseed" : String).data
          = p ++ ('&' :: ("sourcemomenttensor=".data ++ smtValueChars mtEx))
            ++ s)
      ∧ splitChar ',' (smtValueChars mtEx)
        = [(fmtE mtEx.rr).data.filter (fun c => c ≠ '+'),
           (fmtE mtEx.tt).data.filter (fun c => c ≠ '+'),
           (fmtE mtEx.pp).data.filter (fun c => c ≠ '+'),
           (fmtE mtEx.rt).data.filter (fun c => c ≠ '+'),
           (fmtE mtEx.pr).data.filter (fun c => c ≠ '+'),
           (fmtE mtEx.tp).data.filter (fun c => c ≠ '+')]) :=
  ⟨by decide,
    c1_mt_order_amended 1 2 1000 mtEx 3 4 none none none "dis" "ZRT" true
      _ (by decide)⟩

theorem startsL_take :
    ∀ (pat lit tail : List Char), startsL pat (lit ++ tail) = true →
      startsL (List.take lit.length pat) lit = true := by
  intro pat
  induction pat with
  | nil => intro lit tail _; cases lit <;> simp [List.take, startsL]
  | cons p ps ih =>
    intro lit tail h
    cases lit with
    | nil => simp [List.take, startsL]
    | cons c cs =>
      rw [List.cons_append] at h
      simp only [startsL, Bool.and_eq_true, List.length_cons,
        List.take_succ_cons] at h ⊢
      exact ⟨h.1, ih cs tail h.2⟩

theorem startsL_false_of (pat lit tail : List Char)
    (hd : startsL (List.take lit.length pat) lit = false) :
    startsL pat (lit ++ tail) = false := by
  cases h : startsL pat (lit ++ tail) with
  | false => rfl
  | true => exact absurd (startsL_take pat lit tail h) (by simp [hd])

/-- Claim C9 counterexample: a model string containing an ampersand can
inject a `sourcewidth` query parameter into the URL even though `stf` is
None. -/
theorem c9_sourcewidth_injection_counterexample :
    get_recording_url 1 2 1000 mtEx 3 4 (some "x&sourcewidth=1") none none
        "dis" "ZRT" true
      = some "http://service.iris.edu/irisws/syngine/1/query?model=x&sourcewidth=1&sourcelongitude=1.000000&sourcelatitude=2.000000&sourcedepthinmeters=1000.0&sourcemomenttensor=1.000000e00,2.000000e00,3.000000e00,4.000000e00,6.000000e00,5.000000e00&receiverlongitude=3.0&receiverlatitude=4.0&units=displacement&components=ZRT&format=miniseed"
    ∧ hasParam "http://service.iris.edu/irisws/syngine/1/query?model=x&sourcewidth=1&sourcelongitude=1.000000&sourcelatitude=2.000000&sourcedepthinmeters=1000.0&sourcemomenttensor=1.000000e00,2.000000e00,3.000000e00,4.000000e00,6.000000e00,5.000000e00&receiverlongitude=3.0&receiverlatitude=4.0&units=displacement&components=ZRT&format=miniseed"
        "sourcewidth" = true := by
  decide

/-- Claim C9 amended: when the supplied model string and the components
selector contain no ampersand, the URL of a successful call carries a
`sourcewidth` query parameter exactly when `stf` is given (with value
`str(stf)`), and an `endtime` query parameter exactly when `duration` is
given (with value `str(duration)`). -/
theorem c9_sourcewidth_endtime_iff (src_lon src_lat src_depth : ℚ)
    (mt : MomentTensor) (rcv_lon rcv_lat : ℚ) (model : Option String)
    (stf : Option ℤ) (duration : Option ℚ) (gmt components : String)
    (validate : Bool) (url : String)
    (h : get_recording_url src_lon src_lat src_depth mt rcv_lon rcv_lat
      model stf duration gmt components validate = some url)
    (hmodel : ∀ m, model = some m → '&' ∉ m.data)
    (hcomp : '&' ∉ components.data) :
    (hasParam url "sourcewidth" = true ↔ stf ≠ none)
    ∧ (∀ s, stf = some s →
        ("sourcewidth=".data ++ (intStr s).data) ∈ querySegments url)
    ∧ (hasParam url "endtime" = true ↔ duration ≠ none)
    ∧ (∀ d, duration = some d →
        ("endtime=".data ++ (pyStr d).data) ∈ querySegments url) := by
  obtain ⟨uw, huw, _hurl⟩ :=
    get_recording_url_shape _ _ _ _ _ _ _ _ _ _ _ _ _ h
  have hmodel' : '&' ∉ (modelWord model).data := by
    cases model with
    | none => decide
    | some m =>
      by_cases hm : m = ""
      · subst hm; simp only [modelWord, if_pos rfl]; decide
      · simpa [modelWord, hm] using hmodel m rfl
  have hseg := querySegments_of_url _ _ _ _ _ _ _ _ _ _ _ _ _ _ h huw
    hmodel' hcomp
  have hp1 : "sourcewidth".data ++ ['='] = "sourcewidth=".data := by decide
  have hp2 : "endtime".data ++ ['='] = "endtime=".data := by decide
  have sw_model : ∀ t, startsL ['s', 'o', 'u', 'r', 'c', 'e', 'w', 'i', 'd', 't', 'h', '='] ('m' :: 'o' :: 'd' :: 'e' :: 'l' :: '=' :: t) = false :=
    fun t => startsL_false_of _ ['m', 'o', 'd', 'e', 'l', '='] t (by decide)
  have sw_slon : ∀ t, startsL ['s', 'o', 'u', 'r', 'c', 'e', 'w', 'i', 'd', 't', 'h', '='] ('s' :: 'o' :: 'u' :: 'r' :: 'c' :: 'e' :: 'l' :: 'o' :: 'n' :: 'g' :: 'i' :: 't' :: 'u' :: 'd' :: 'e' :: '=' :: t) = false :=
    fun t => startsL_false_of _ ['s', 'o', 'u', 'r', 'c', 'e', 'l', 'o', 'n', 'g', 'i', 't', 'u', 'd', 'e', '='] t (by decide)
  have sw_slat : ∀ t, startsL ['s', 'o', 'u', 'r', 'c', 'e', 'w', 'i', 'd', 't', 'h', '='] ('s' :: 'o' :: 'u' :: 'r' :: 'c' :: 'e' :: 'l' :: 'a' :: 't' :: 'i' :: 't' :: 'u' :: 'd' :: 'e' :: '=' :: t) = false :=
    fun t => startsL_false_of _ ['s', 'o', 'u', 'r', 'c', 'e', 'l', 'a', 't', 'i', 't', 'u', 'd', 'e', '='] t (by decide)
  have sw_sdep : ∀ t, startsL ['s', 'o', 'u', 'r', 'c', 'e', 'w', 'i', 'd', 't', 'h', '='] ('s' :: 'o' :: 'u' :: 'r' :: 'c' :: 'e' :: 'd' :: 'e' :: 'p' :: 't' :: 'h' :: 'i' :: 'n' :: 'm' :: 'e' :: 't' :: 'e' :: 'r' :: 's' :: '=' :: t) = false :=
    fun t => startsL_false_of _ ['s', 'o', 'u', 'r', 'c', 'e', 'd', 'e', 'p', 't', 'h', 'i', 'n', 'm', 'e', 't', 'e', 'r', 's', '='] t (by decide)
  have sw_smt : ∀ t, startsL ['s', 'o', 'u', 'r', 'c', 'e', 'w', 'i', 'd', 't', 'h', '='] ('s' :: 'o' :: 'u' :: 'r' :: 'c' :: 'e' :: 'm' :: 'o' :: 'm' :: 'e' :: 'n' :: 't' :: 't' :: 'e' :: 'n' :: 's' :: 'o' :: 'r' :: '=' :: t) = false :=
    fun t => startsL_false_of _ ['s', 'o', 'u', 'r', 'c', 'e', 'm', 'o', 'm', 'e', 'n', 't', 't', 'e', 'n', 's', 'o', 'r', '='] t (by decide)
  have sw_pos : ∀ t, startsL ['s', 'o', 'u', 'r', 'c', 'e', 'w', 'i', 'd', 't', 'h', '='] ('s' :: 'o' :: 'u' :: 'r' :: 'c' :: 'e' :: 'w' :: 'i' :: 'd' :: 't' :: 'h' :: '=' :: t) = true :=
    fun t => startsL_self_append ['s', 'o', 'u', 'r', 'c', 'e', 'w', 'i', 'd', 't', 'h', '='] t
  have sw_rlon : ∀ t, startsL ['s', 'o', 'u', 'r', 'c', 'e', 'w', 'i', 'd', 't', 'h', '='] ('r' :: 'e' :: 'c' :: 'e' :: 'i' :: 'v' :: 'e' :: 'r' :: 'l' :: 'o' :: 'n' :: 'g' :: 'i' :: 't' :: 'u' :: 'd' :: 'e' :: '=' :: t) = false :=
    fun t => startsL_false_of _ ['r', 'e', 'c', 'e', 'i', 'v', 'e', 'r', 'l', 'o', 'n', 'g', 'i', 't', 'u', 'd', 'e', '='] t (by decide)
  have sw_rlat : ∀ t, startsL ['s', 'o', 'u', 'r', 'c', 'e', 'w', 'i', 'd', 't', 'h', '='] ('r' :: 'e' :: 'c' :: 'e' :: 'i' :: 'v' :: 'e' :: 'r' :: 'l' :: 'a' :: 't' :: 'i' :: 't' :: 'u' :: 'd' :: 'e' :: '=' :: t) = false :=
    fun t => startsL_false_of _ ['r', 'e', 'c', 'e', 'i', 'v', 'e', 'r', 'l', 'a', 't', 'i', 't', 'u', 'd', 'e', '='] t (by decide)
  have sw_end : ∀ t, startsL ['s', 'o', 'u', 'r', 'c', 'e', 'w', 'i', 'd', 't', 'h', '='] ('e' :: 'n' :: 'd' :: 't' :: 'i' :: 'm' :: 'e' :: '=' :: t) = false :=
    fun t => startsL_false_of _ ['e', 'n', 'd', 't', 'i', 'm', 'e', '='] t (by decide)
  have sw_units : ∀ t, startsL ['s', 'o', 'u', 'r', 'c', 'e', 'w', 'i', 'd', 't', 'h', '='] ('u' :: 'n' :: 'i' :: 't' :: 's' :: '=' :: t) = false :=
    fun t => startsL_false_of _ ['u', 'n', 'i', 't', 's', '='] t (by decide)
  have sw_comp : ∀ t, startsL ['s', 'o', 'u', 'r', 'c', 'e', 'w', 'i', 'd', 't', 'h', '='] ('c' :: 'o' :: 'm' :: 'p' :: 'o' :: 'n' :: 'e' :: 'n' :: 't' :: 's' :: '=' :: t) = false :=
    fun t => startsL_false_of _ ['c', 'o', 'm', 'p', 'o', 'n', 'e', 'n', 't', 's', '='] t (by decide)
  have sw_fmt : startsL ['s', 'o', 'u', 'r', 'c', 'e', 'w', 'i', 'd', 't', 'h', '='] "format=miniseed".data = false := by
    decide
  have et_model : ∀ t, startsL ['e', 'n', 'd', 't', 'i', 'm', 'e', '='] ('m' :: 'o' :: 'd' :: 'e' :: 'l' :: '=' :: t) = false :=
    fun t => startsL_false_of _ ['m', 'o', 'd', 'e', 'l', '='] t (by decide)
  have et_slon : ∀ t, startsL ['e', 'n', 'd', 't', 'i', 'm', 'e', '='] ('s' :: 'o' :: 'u' :: 'r' :: 'c' :: 'e' :: 'l' :: 'o' :: 'n' :: 'g' :: 'i' :: 't' :: 'u' :: 'd' :: 'e' :: '=' :: t) = false :=
    fun t => startsL_false_of _ ['s', 'o', 'u', 'r', 'c', 'e', 'l', 'o', 'n', 'g', 'i', 't', 'u', 'd', 'e', '='] t (by decide)
  have et_slat : ∀ t, startsL ['e', 'n', 'd', 't', 'i', 'm', 'e', '='] ('s' :: 'o' :: 'u' :: 'r' :: 'c' :: 'e' :: 'l' :: 'a' :: 't' :: 'i' :: 't' :: 'u' :: 'd' :: 'e' :: '=' :: t) = false :=
    fun t => startsL_false_of _ ['s', 'o', 'u', 'r', 'c', 'e', 'l', 'a', 't', 'i', 't', 'u', 'd', 'e', '='] t (by decide)
  have et_sdep : ∀ t, startsL ['e', 'n', 'd', 't', 'i', 'm', 'e', '='] ('s' :: 'o' :: 'u' :: 'r' :: 'c' :: 'e' :: 'd' :: 'e' :: 'p' :: 't' :: 'h' :: 'i' :: 'n' :: 'm' :: 'e' :: 't' :: 'e' :: 'r' :: 's' :: '=' :: t) = false :=
    fun t => startsL_false_of _ ['s', 'o', 'u', 'r', 'c', 'e', 'd', 'e', 'p', 't', 'h', 'i', 'n', 'm', 'e', 't', 'e', 'r', 's', '='] t (by decide)
  have et_smt : ∀ t, startsL ['e', 'n', 'd', 't', 'i', 'm', 'e', '='] ('s' :: 'o' :: 'u' :: 'r' :: 'c' :: 'e' :: 'm' :: 'o' :: 'm' :: 'e' :: 'n' :: 't' :: 't' :: 'e' :: 'n' :: 's' :: 'o' :: 'r' :: '=' :: t) = false :=
    fun t => startsL_false_of _ ['s', 'o', 'u', 'r', 'c', 'e', 'm', 'o', 'm', 'e', 'n', 't', 't', 'e', 'n', 's', 'o', 'r', '='] t (by decide)
  have et_sw : ∀ t, startsL ['e', 'n', 'd', 't', 'i', 'm', 'e', '='] ('s' :: 'o' :: 'u' :: 'r' :: 'c' :: 'e' :: 'w' :: 'i' :: 'd' :: 't' :: 'h' :: '=' :: t) = false :=
    fun t => startsL_false_of _ ['s', 'o', 'u', 'r', 'c', 'e', 'w', 'i', 'd', 't', 'h', '='] t (by decide)
  have et_rlon : ∀ t, startsL ['e', 'n', 'd', 't', 'i', 'm', 'e', '='] ('r' :: 'e' :: 'c' :: 'e' :: 'i' :: 'v' :: 'e' :: 'r' :: 'l' :: 'o' :: 'n' :: 'g' :: 'i' :: 't' :: 'u' :: 'd' :: 'e' :: '=' :: t) = false :=
    fun t => startsL_false_of _ ['r', 'e', 'c', 'e', 'i', 'v', 'e', 'r', 'l', 'o', 'n', 'g', 'i', 't', 'u', 'd', 'e', '='] t (by decide)
  have et_rlat : ∀ t, startsL ['e', 'n', 'd', 't', 'i', 'm', 'e', '='] ('r' :: 'e' :: 'c' :: 'e' :: 'i' :: 'v' :: 'e' :: 'r' :: 'l' :: 'a' :: 't' :: 'i' :: 't' :: 'u' :: 'd' :: 'e' :: '=' :: t) = false :=
    fun t => startsL_false_of _ ['r', 'e', 'c', 'e', 'i', 'v', 'e', 'r', 'l', 'a', 't', 'i', 't', 'u', 'd', 'e', '='] t (by decide)
  have et_pos : ∀ t, startsL ['e', 'n', 'd', 't', 'i', 'm', 'e', '='] ('e' :: 'n' :: 'd' :: 't' :: 'i' :: 'm' :: 'e' :: '=' :: t) = true :=
    fun t => startsL_self_append ['e', 'n', 'd', 't', 'i', 'm', 'e', '='] t
  have et_units : ∀ t, startsL ['e', 'n', 'd', 't', 'i', 'm', 'e', '='] ('u' :: 'n' :: 'i' :: 't' :: 's' :: '=' :: t) = false :=
    fun t => startsL_false_of _ ['u', 'n', 'i', 't', 's', '='] t (by decide)
  have et_comp : ∀ t, startsL ['e', 'n', 'd', 't', 'i', 'm', 'e', '='] ('c' :: 'o' :: 'm' :: 'p' :: 'o' :: 'n' :: 'e' :: 'n' :: 't' :: 's' :: '=' :: t) = false :=
    fun t => startsL_false_of _ ['c', 'o', 'm', 'p', 'o', 'n', 'e', 'n', 't', 's', '='] t (by decide)
  have et_fmt : startsL ['e', 'n', 'd', 't', 'i', 'm', 'e', '='] "format=miniseed".data = false := by
    decide
  rcases stf with _ | w <;> rcases duration with _ | d
  · refine ⟨?_, ?_, ?_, ?_⟩
    · simp only [hasParam, hseg, hp1, hp2, syngineSegments, List.cons_append,
        List.nil_append, List.append_nil, List.any_cons, List.any_nil,
        sw_model, sw_slon, sw_slat, sw_sdep, sw_smt, sw_rlon, sw_rlat, sw_units, sw_comp, sw_fmt]
      simp
    · intro s hs; exact Option.noConfusion hs
    · simp only [hasParam, hseg, hp1, hp2, syngineSegments, List.cons_append,
        List.nil_append, List.append_nil, List.any_cons, List.any_nil,
        et_model, et_slon, et_slat, et_sdep, et_smt, et_rlon, et_rlat, et_units, et_comp, et_fmt]
      simp
    · intro d hd; exact Option.noConfusion hd
  · refine ⟨?_, ?_, ?_, ?_⟩
    · simp only [hasParam, hseg, hp1, hp2, syngineSegments, List.cons_append,
        List.nil_append, List.append_nil, List.any_cons, List.any_nil,
        sw_model, sw_slon, sw_slat, sw_sdep, sw_smt, sw_end, sw_rlon, sw_rlat, sw_units, sw_comp, sw_fmt]
      simp
    · intro s hs; exact Option.noConfusion hs
    · simp only [hasParam, hseg, hp1, hp2, syngineSegments, List.cons_append,
        List.nil_append, List.append_nil, List.any_cons, List.any_nil,
        et_model, et_slon, et_slat, et_sdep, et_smt, et_pos, et_rlon, et_rlat, et_units, et_comp, et_fmt]
      simp
    · intro d0 hd
      obtain rfl := Option.some.inj hd
      rw [hseg]
      simp [syngineSegments]
  · refine ⟨?_, ?_, ?_, ?_⟩
    · simp only [hasParam, hseg, hp1, hp2, syngineSegments, List.cons_append,
        List.nil_append, List.append_nil, List.any_cons, List.any_nil,
        sw_model, sw_slon, sw_slat, sw_sdep, sw_smt, sw_pos, sw_rlon, sw_rlat, sw_units, sw_comp, sw_fmt]
      simp
    · intro s hs
      obtain rfl := Option.some.inj hs
      rw [hseg]
      simp [syngineSegments]
    · simp only [hasParam, hseg, hp1, hp2, syngineSegments, List.cons_append,
        List.nil_append, List.append_nil, List.any_cons, List.any_nil,
        et_model, et_slon, et_slat, et_sdep, et_smt, et_sw, et_rlon, et_rlat, et_units, et_comp, et_fmt]
      simp
    · intro d hd; exact Option.noConfusion hd
  · refine ⟨?_, ?_, ?_, ?_⟩
    · simp only [hasParam, hseg, hp1, hp2, syngineSegments, List.cons_append,
        List.nil_append, List.append_nil, List.any_cons, List.any_nil,
        sw_model, sw_slon, sw_slat, sw_sdep, sw_smt, sw_pos, sw_end, sw_rlon, sw_rlat, sw_units, sw_comp, sw_fmt]
      simp
    · intro s hs
      obtain rfl := Option.some.inj hs
      rw [hseg]
      simp [syngineSegments]
    · simp only [hasParam, hseg, hp1, hp2, syngineSegments, List.cons_append,
        List.nil_append, List.append_nil, List.any_cons, List.any_nil,
        et_model, et_slon, et_slat, et_sdep, et_smt, et_sw, et_pos, et_rlon, et_rlat, et_units, et_comp, et_fmt]
      simp
    · intro d0 hd
      obtain rfl := Option.some.inj hd
      rw [hseg]
      simp [syngineSegments]

theorem c9_sourcewidth_endtime_iff_witness :
    get_recording_url 1 2 1000 mtEx 3 4 none (some 7) (some 25) "acc"
        "ZNE" true
      = some "http://service.iris.edu/irisws/syngine/1/query?model=ak135f_2s&sourcelongitude=1.000000&sourcelatitude=2.000000&sourcedepthinmeters=1000.0&sourcemomenttensor=1.000000e00,2.000000e00,3.000000e00,4.000000e00,6.000000e00,5.000000e00&sourcewidth=7&receiverlongitude=3.0&receiverlatitude=4.0&endtime=25.0&units=acceleration&components=ZNE&format=miniseed"
    ∧ ((hasParam "http://service.iris.edu/irisws/syngine/1/query?model=ak135f_2s&sourcelongitude=1.000000&sourcelatitude=2.000000&sourcedepthinmeters=1000.0&sourcemomenttensor=1.000000e00,2.000000e00,3.000000e00,4.000000e00,6.000000e00,5.000000e00&sourcewidth=7&receiverlongitude=3.0&receiverlatitude=4.0&endtime=25.0&units=acceleration&components=ZNE&format=miniseed"
          "sourcewidth" = true ↔ (some 7 : Option ℤ) ≠ none)
      ∧ (∀ s, (some 7 : Option ℤ) = some s →
          ("sourcewidth=".data ++ (intStr s).data) ∈ querySegments "http://service.iris.edu/irisws/syngine/1/query?model=ak135f_2s&sourcelongitude=1.000000&sourcelatitude=2.000000&sourcedepthinmeters=1000.0&sourcemomenttensor=1.000000e00,2.000000e00,3.000000e00,4.000000e00,6.000000e00,5.000000e00&sourcewidth=7&receiverlongitude=3.0&receiverlatitude=4.0&endtime=25.0&units=acceleration&components=ZNE&format=miniseed")
      ∧ (hasParam "http://service.iris.edu/irisws/syngine/1/query?model=ak135f_2s&sourcelongitude=1.000000&sourcelatitude=2.000000&sourcedepthinmeters=1000.0&sourcemomenttensor=1.000000e00,2.000000e00,3.000000e00,4.000000e00,6.000000e00,5.000000e00&sourcewidth=7&receiverlongitude=3.0&receiverlatitude=4.0&endtime=25.0&units=acceleration&components=ZNE&format=miniseed"
          "endtime" = true ↔ (some 25 : Option ℚ) ≠ none)
      ∧ (∀ d, (some 25 : Option ℚ) = some d →
          ("endtime=".data ++ (pyStr d).data) ∈ querySegments "http://service.iris.edu/irisws/syngine/1/query?model=ak135f_2s&sourcelongitude=1.000000&sourcelatitude=2.000000&sourcedepthinmeters=1000.0&sourcemomenttensor=1.000000e00,2.000000e00,3.000000e00,4.000000e00,6.000000e00,5.000000e00&sourcewidth=7&receiverlongitude=3.0&receiverlatitude=4.0&endtime=25.0&units=acceleration&components=ZNE&format=miniseed")) :=
  ⟨by decide,
    c9_sourcewidth_endtime_iff 1 2 1000 mtEx 3 4 none (some 7) (some 25)
      "acc" "ZNE" true _ (by decide)
      (by intro m hm; exact Option.noConfusion hm) (by decide)⟩

/-- Three parsed response traces used in the C6 witness. -/
def streamEx : List Trace :=
  [⟨1 / 100, [1, 2]⟩, ⟨1 / 100, [3, 4]⟩, ⟨1 / 100, [5, 6]⟩]

/-- Claim C6: every Recording returned by `get_recording` keys the
characters of the components selector, in order, to Seismograms built
from the response traces, each carrying the SI unit of the requested
ground-motion type. -/
theorem c6_recording_components (stream : List Trace)
    (src_lon src_lat src_depth : ℚ) (mt : MomentTensor)
    (rcv_lon rcv_lat : ℚ) (model : Option String) (stf : Option ℤ)
    (duration : Option ℚ) (gmt components : String) (validate : Bool)
    (r : Recording)
    (h : get_recording stream src_lon src_lat src_depth mt rcv_lon rcv_lat
      model stf duration gmt components validate = some r) :
    ∃ u, MOTION_SI gmt = some u
      ∧ r.components = (components.data.zip stream).map
          (fun p => (p.1, Seismogram.from_trace p.2 u))
      ∧ ∀ cs ∈ r.components, cs.2.unit = u := by
  unfold get_recording at h
  cases hu : get_recording_url src_lon src_lat src_depth mt rcv_lon
      rcv_lat model stf duration gmt components validate with
  | none => rw [hu] at h; exact absurd h (by simp)
  | some u2 =>
    rw [hu] at h
    cases hsi : MOTION_SI gmt with
    | none => rw [hsi] at h; exact absurd h (by simp)
    | some u =>
      rw [hsi] at h
      unfold Recording.make at h
      dsimp only at h
      split_ifs at h
      obtain rfl := Option.some.inj h
      refine ⟨u, rfl, rfl, ?_⟩
      intro cs hcs
      obtain ⟨p, _hp, rfl⟩ := List.mem_map.mp hcs
      rfl

theorem c6_recording_components_witness :
    get_recording streamEx 1 2 1000 mtEx 3 4 none none none "dis" "ZRT"
        true
      = some (Recording.mk [('Z', Seismogram.mk (1 / 100) [1, 2] "m"),
          ('R', Seismogram.mk (1 / 100) [3, 4] "m"),
          ('T', Seismogram.mk (1 / 100) [5, 6] "m")])
    ∧ (∃ u, MOTION_SI "dis" = some u
      ∧ (Recording.mk [('Z', Seismogram.mk (1 / 100) [1, 2] "m"),
          ('R', Seismogram.mk (1 / 100) [3, 4] "m"),
          ('T', Seismogram.mk (1 / 100) [5, 6] "m")]).components
        = ("ZRT".data.zip streamEx).map
          (fun p => (p.1, Seismogram.from_trace p.2 u))
      ∧ ∀ cs ∈ (Recording.mk [('Z', Seismogram.mk (1 / 100) [1, 2] "m"),
          ('R', Seismogram.mk (1 / 100) [3, 4] "m"),
          ('T', Seismogram.mk (1 / 100) [5, 6] "m")]).components,
          cs.2.unit = u) :=
  ⟨by decide,
    c6_recording_components streamEx 1 2 1000 mtEx 3 4 none none none
      "dis" "ZRT" true _ (by decide)⟩
